import Mathlib

/-!
Verification of the `aicode` package (`src/src/aicode/__init__.py`).

The module body is:

  __all__: Sequence[LiteralString] = ('__version__',)
  __version__: str = version(distribution_name='aiCode')

where `version` is the external metadata provider's lookup
(`importlib.metadata.version`).  We embed the provider abstractly as a
partial map from distribution names to version strings, the provider's
`version` call as a fallible function, and module initialization as a
function producing both an effect trace (metadata reads and module-level
name bindings, in source order) and either the initialized module or the
propagated provider error.
-/

namespace Aicode

/-- The external metadata provider: maps an installed distribution name to
its recorded version string; `none` means the distribution is not
installed/registered. -/
structure MetadataProvider where
  lookup : String → Option String

/-- Modelled from the spec: the NotFound-style error raised by the external
metadata provider (`importlib.metadata.PackageNotFoundError`) when no
distribution of the given name is installed.  The provider itself is not
part of this repository; its contract is stated in the spec's
"Collaborator — Metadata Provider" section. -/
inductive PackageNotFoundError where
  | mk (distribution_name : String)
deriving DecidableEq, Repr

/-- Modelled from the spec: the external metadata provider's lookup
operation (`importlib.metadata.version`): given a distribution name,
return its version string or fail with a NotFound error.  This is the
`get_version(distribution_name: string) -> string` operation of the
Version Accessor's collaborator. -/
def version (p : MetadataProvider) (distribution_name : String) :
    Except PackageNotFoundError String :=
  match p.lookup distribution_name with
  | some v => Except.ok v
  | none => Except.error (PackageNotFoundError.mk distribution_name)

/-- The module's namespace after successful initialization: the two
module-level assignments of `__init__.py`. -/
structure AicodeModule where
  __all__ : List String
  __version__ : String
deriving DecidableEq, Repr

/-- Observable effects of executing the module body: a load of an imported
module into the interpreter's module cache (`sys.modules`), a query of the
external metadata provider, or a binding of a module-level name. -/
inductive Effect where
  | moduleLoad (module_name : String)
  | metadataRead (distribution_name : String)
  | bindName (name : String)
deriving DecidableEq, Repr

/-- Effects of the three import statements (lines 4-6): each
`from M import x` loads `M` into the module cache and binds `x` as a
module-level name of this module. -/
def importEffects : List Effect :=
  [Effect.moduleLoad "collections.abc", Effect.bindName "Sequence",
   Effect.moduleLoad "importlib.metadata", Effect.bindName "version",
   Effect.moduleLoad "typing", Effect.bindName "LiteralString"]

/-- Shallow embedding of the module body of `src/src/aicode/__init__.py`:
the three import statements run first (lines 4-6), then `__all__` is bound
to the one-element tuple `('__version__',)` (line 9), then the provider is
queried for the fixed literal name `'aiCode'` and, on success,
`__version__` is bound to the returned string (line 12); a provider error
is propagated unchanged (there is no try/except in the source). -/
def initAicode (p : MetadataProvider) :
    List Effect × Except PackageNotFoundError AicodeModule :=
  match version p "aiCode" with
  | Except.ok v =>
      (importEffects ++
        [Effect.bindName "__all__", Effect.metadataRead "aiCode",
         Effect.bindName "__version__"],
       Except.ok { __all__ := ["__version__"], __version__ := v })
  | Except.error e =>
      (importEffects ++
        [Effect.bindName "__all__", Effect.metadataRead "aiCode"],
       Except.error e)

/-- A later read of the module's `__version__` attribute: it performs no
effects (no provider query, no binding) and returns the stored string. -/
def readVersion (m : AicodeModule) : List Effect × String :=
  ([], m.__version__)

/-- Does this effect bind the given module-level name? -/
def isBindOf (name : String) (e : Effect) : Bool :=
  match e with
  | Effect.bindName n => n == name
  | _ => false

/-- Is this effect a query of the metadata provider? -/
def isMetadataRead (e : Effect) : Bool :=
  match e with
  | Effect.metadataRead _ => true
  | _ => false

/-- Number of bindings of a given name in an effect trace. -/
def bindCount (name : String) (es : List Effect) : Nat :=
  (es.filter (isBindOf name)).length

/-- Number of provider queries in an effect trace. -/
def readCount (es : List Effect) : Nat :=
  (es.filter isMetadataRead).length

/-- The distribution names queried in an effect trace, in order. -/
def queriedNames (es : List Effect) : List String :=
  es.filterMap (fun e =>
    match e with
    | Effect.metadataRead n => some n
    | _ => none)

/-- A provider with distribution `aiCode` installed at version `1.2.3`. -/
def exampleProvider : MetadataProvider :=
  ⟨fun n => if n == "aiCode" then some "1.2.3" else none⟩

/-- A provider with no installed distributions. -/
def emptyProvider : MetadataProvider :=
  ⟨fun _ => none⟩

/-- A second provider agreeing with `exampleProvider` on `aiCode` but
differing elsewhere. -/
def otherProvider : MetadataProvider :=
  ⟨fun n => if n == "aiCode" then some "1.2.3" else some "9.9.9"⟩

end Aicode

namespace Aicode

/-- C1: if the metadata provider reports a version string for the name
`aiCode`, importing the package binds `__version__` to exactly that
string, forwarded unchanged. -/
theorem c1_version_forwarded (p : MetadataProvider) (s : String)
    (h : p.lookup "aiCode" = some s) :
    (initAicode p).2 =
      Except.ok { __all__ := ["__version__"], __version__ := s } := by
  simp [initAicode, version, h]

/-- Witness for C1 at the provider recording version `1.2.3`. -/
theorem c1_witness :
    (initAicode exampleProvider).2 =
      Except.ok { __all__ := ["__version__"], __version__ := "1.2.3" } :=
  c1_version_forwarded exampleProvider "1.2.3" rfl

/-- C2: if the provider has no entry for `aiCode`, initialization raises
the provider's NotFound error, propagated unchanged (the result is exactly
the error `version` itself produced), and no module is produced, so no
version constant is bound. -/
theorem c2_not_found_propagated (p : MetadataProvider)
    (h : p.lookup "aiCode" = none) :
    (initAicode p).2 = Except.error (PackageNotFoundError.mk "aiCode") ∧
    version p "aiCode" = Except.error (PackageNotFoundError.mk "aiCode") ∧
    ∀ m : AicodeModule, (initAicode p).2 ≠ Except.ok m := by
  refine ⟨?_, ?_, ?_⟩ <;> simp [initAicode, version, h]

/-- Witness for C2 at the empty provider. -/
theorem c2_witness :
    (initAicode emptyProvider).2 =
      Except.error (PackageNotFoundError.mk "aiCode") ∧
    version emptyProvider "aiCode" =
      Except.error (PackageNotFoundError.mk "aiCode") ∧
    ∀ m : AicodeModule, (initAicode emptyProvider).2 ≠ Except.ok m :=
  c2_not_found_propagated emptyProvider rfl

/-- C3: whenever initialization succeeds, `__all__` is exactly the
one-element list containing the identifier `__version__`. -/
theorem c3_all_singleton (p : MetadataProvider) (m : AicodeModule)
    (h : (initAicode p).2 = Except.ok m) :
    m.__all__ = ["__version__"] ∧ m.__all__.length = 1 := by
  revert h
  simp only [initAicode]
  cases hv : version p "aiCode" with
  | ok v =>
      intro h
      simp only [Except.ok.injEq] at h
      subst h
      exact ⟨rfl, rfl⟩
  | error e => intro h; simp_all

/-- Witness for C3 at the provider recording version `1.2.3`. -/
theorem c3_witness :
    (AicodeModule.mk ["__version__"] "1.2.3").__all__ = ["__version__"] ∧
    (AicodeModule.mk ["__version__"] "1.2.3").__all__.length = 1 :=
  c3_all_singleton exampleProvider (AicodeModule.mk ["__version__"] "1.2.3") rfl

/-- C4: the `get_version` operation takes a distribution name and returns
that distribution's version string whenever the distribution is
installed. -/
theorem c4_get_version (p : MetadataProvider) (name v : String)
    (h : p.lookup name = some v) :
    version p name = Except.ok v := by
  simp [version, h]

/-- Witness for C4: `get_version` on `aiCode` returns `1.2.3`. -/
theorem c4_witness : version exampleProvider "aiCode" = Except.ok "1.2.3" :=
  c4_get_version exampleProvider "aiCode" "1.2.3" rfl

/-- C5: on a successful initialization, `__version__` is bound exactly
once in the trace (never reassigned), and a later read performs no effects
(no recomputation) and returns exactly the bound string. -/
theorem c5_bound_once_stable (p : MetadataProvider) (m : AicodeModule)
    (h : (initAicode p).2 = Except.ok m) :
    bindCount "__version__" (initAicode p).1 = 1 ∧
    (readVersion m).1 = [] ∧
    (readVersion m).2 = m.__version__ := by
  cases hv : p.lookup "aiCode" with
  | none => simp [initAicode, version, hv] at h
  | some v =>
      simp only [initAicode, version, hv] at h ⊢
      simp only [Except.ok.injEq] at h
      subst h
      exact ⟨by decide, rfl, rfl⟩

/-- Witness for C5 at the provider recording version `1.2.3`. -/
theorem c5_witness :
    bindCount "__version__" (initAicode exampleProvider).1 = 1 ∧
    (readVersion (AicodeModule.mk ["__version__"] "1.2.3")).1 = [] ∧
    (readVersion (AicodeModule.mk ["__version__"] "1.2.3")).2 =
      (AicodeModule.mk ["__version__"] "1.2.3").__version__ :=
  c5_bound_once_stable exampleProvider
    (AicodeModule.mk ["__version__"] "1.2.3") rfl

/-- C6: every execution of module initialization queries the metadata
provider exactly once, and later reads of the constant perform no
queries. -/
theorem c6_single_query (p : MetadataProvider) :
    readCount (initAicode p).1 = 1 ∧
    ∀ m : AicodeModule, readCount (readVersion m).1 = 0 := by
  constructor
  · cases hv : p.lookup "aiCode" <;>
      · simp only [initAicode, version, hv]
        decide
  · intro m
    simp [readVersion, readCount]

/-- C7, counterexample: the claim that every effect of initialization is
the metadata read or a binding of `__all__` or `__version__` is false: the
imports of lines 4-6 also load `importlib.metadata` into the
interpreter's module cache (state outside the module) and bind the
module-level name `Sequence`, which is neither of the two claimed
bindings. -/
theorem c7_counterexample :
    Effect.moduleLoad "importlib.metadata" ∈ (initAicode exampleProvider).1 ∧
    Effect.bindName "Sequence" ∈ (initAicode exampleProvider).1 ∧
    ¬ (∀ e ∈ (initAicode exampleProvider).1,
        e = Effect.metadataRead "aiCode" ∨
        e = Effect.bindName "__all__" ∨
        e = Effect.bindName "__version__") := by
  decide

/-- C7, amended: every effect of module initialization is either a load of
one of the three imported stdlib modules (`collections.abc`,
`importlib.metadata`, `typing`) into the interpreter's module cache, a
binding of one of the module's own names (`Sequence`, `version`,
`LiteralString`, `__all__`, `__version__`), or the single read of the
metadata provider. -/
theorem c7_frame_amended (p : MetadataProvider) :
    ∀ e ∈ (initAicode p).1,
      e = Effect.moduleLoad "collections.abc" ∨
      e = Effect.moduleLoad "importlib.metadata" ∨
      e = Effect.moduleLoad "typing" ∨
      e = Effect.bindName "Sequence" ∨
      e = Effect.bindName "version" ∨
      e = Effect.bindName "LiteralString" ∨
      e = Effect.metadataRead "aiCode" ∨
      e = Effect.bindName "__all__" ∨
      e = Effect.bindName "__version__" := by
  intro e he
  revert he
  cases hv : p.lookup "aiCode" <;>
    · simp only [initAicode, version, hv]
      intro he
      simp [importEffects] at he
      tauto

/-- Witness for the amended C7: the first effect of initializing with the
example provider is covered by the amended frame. -/
theorem c7_amended_witness :
    Effect.moduleLoad "collections.abc" = Effect.moduleLoad "collections.abc" ∨
    Effect.moduleLoad "collections.abc" = Effect.moduleLoad "importlib.metadata" ∨
    Effect.moduleLoad "collections.abc" = Effect.moduleLoad "typing" ∨
    Effect.moduleLoad "collections.abc" = Effect.bindName "Sequence" ∨
    Effect.moduleLoad "collections.abc" = Effect.bindName "version" ∨
    Effect.moduleLoad "collections.abc" = Effect.bindName "LiteralString" ∨
    Effect.moduleLoad "collections.abc" = Effect.metadataRead "aiCode" ∨
    Effect.moduleLoad "collections.abc" = Effect.bindName "__all__" ∨
    Effect.moduleLoad "collections.abc" = Effect.bindName "__version__" := by
  have h := c7_frame_amended exampleProvider (Effect.moduleLoad "collections.abc")
    (by simp [initAicode, version, exampleProvider, importEffects])
  exact h

/-- C8: initialization is a deterministic function of the provider's
answer for `aiCode`: two providers agreeing on `aiCode` yield identical
traces and identical results (constant or error). -/
theorem c8_deterministic (p q : MetadataProvider)
    (h : p.lookup "aiCode" = q.lookup "aiCode") :
    initAicode p = initAicode q := by
  simp [initAicode, version, h]

/-- Witness for C8: two providers differing away from `aiCode` but
agreeing on it initialize identically. -/
theorem c8_witness : initAicode exampleProvider = initAicode otherProvider :=
  c8_deterministic exampleProvider otherProvider rfl

/-- C9: the distribution name queried is always exactly the fixed,
case-sensitive literal `aiCode`, which differs from the package's import
name `aicode`. -/
theorem c9_fixed_name (p : MetadataProvider) :
    queriedNames (initAicode p).1 = ["aiCode"] ∧
    "aiCode" ≠ "aicode" := by
  constructor
  · cases hv : p.lookup "aiCode" <;>
      · simp only [initAicode, version, hv]
        decide
  · decide

/-- C10: initialization fails if and only if the provider's lookup for
`aiCode` has no entry, and whenever it succeeds the module binds
`__all__` to the one-element list of the constant's name and `__version__`
to the provider's recorded string. -/
theorem c10_failure_iff (p : MetadataProvider) :
    ((∃ e, (initAicode p).2 = Except.error e) ↔ p.lookup "aiCode" = none) ∧
    ∀ m : AicodeModule, (initAicode p).2 = Except.ok m →
      m.__all__ = ["__version__"] ∧ p.lookup "aiCode" = some m.__version__ := by
  constructor
  · cases hv : p.lookup "aiCode" <;>
      simp [initAicode, version, hv]
  · intro m h
    revert h
    cases hv : p.lookup "aiCode" with
    | none => simp [initAicode, version, hv]
    | some v =>
        simp only [initAicode, version, hv]
        intro h
        simp only [Except.ok.injEq] at h
        subst h
        exact ⟨rfl, rfl⟩

/-- Witness for C10: at the example provider, initialization succeeds and
the success branch of the claim holds at the produced module. -/
theorem c10_witness :
    (initAicode exampleProvider).2 =
      Except.ok (AicodeModule.mk ["__version__"] "1.2.3") ∧
    (AicodeModule.mk ["__version__"] "1.2.3").__all__ = ["__version__"] ∧
    exampleProvider.lookup "aiCode" = some "1.2.3" := by
  refine ⟨rfl, ?_⟩
  exact (c10_failure_iff exampleProvider).2
    (AicodeModule.mk ["__version__"] "1.2.3") rfl

end Aicode
